import Mathlib

/-!
Verification of the ExoMaps Phase 04 deterministic simulation core.

The engine itself lives in `dbs/simulation_core.py` and `dbs/economy_politics.py`,
which are not part of this source snapshot; only the Phase 04 test script, the
documentation and the web clients are.  The simulation engine is therefore
modelled from the specification (data model, per-tick algorithm, control state
machine, event generator, snapshot contract), and all engine-level properties
are settled against that model.  The web-client step-request embedding is taken
directly from the shipped client sources.
-/

attribute [local semireducible] Rat.add Rat.mul Rat.sub Rat.inv

set_option maxRecDepth 100000

namespace ExoSim

/-- Modelled from the spec: the five discrete event types emitted by the
Event Generator (spec section 3, `EventRecord.event_type`). -/
inductive EventType where
  | discovery
  | conflict
  | migration_wave
  | resource_shortage
  | tech_breakthrough
deriving DecidableEq, Repr

/-- Modelled from the spec: the fixed type-priority order in which events
emitted within one tick are appended to the EventLog
(spec section 4.5: discovery, conflict, migration_wave, resource_shortage,
tech_breakthrough). -/
def eventPriority : EventType → ℕ
  | .discovery => 0
  | .conflict => 1
  | .migration_wave => 2
  | .resource_shortage => 3
  | .tech_breakthrough => 4

/-- Modelled from the spec: an EventRecord, immutable once appended
(spec section 3). -/
structure EventRecord where
  tick : ℕ
  event_type : EventType
  location : String
  description : String
deriving DecidableEq, Repr

/-- Modelled from the spec: the engine control states
(spec section 4.1: idle, running, paused, completed; plus the terminal
failed state of spec section 7). -/
inductive EngState where
  | idle
  | running
  | paused
  | completed
  | failed
deriving DecidableEq, Repr

/-- Modelled from the spec: the recoverable error taxonomy (spec section 7). -/
inductive SimError where
  | invalidArgument
  | notRunnable
  | alreadyCompleted
  | notFound
  | busy
deriving DecidableEq, Repr

/-- Modelled from the spec: the per-system mutable record (spec section 3,
`SystemState`). -/
structure SystemState where
  population : ℕ
  tech_level : ℚ
  internal_cohesion : ℚ
  economic_output : ℚ
  trade_balance : ℚ
  has_independence_movement : Bool
deriving DecidableEq, Repr

/-- Modelled from the spec: the mutable world state, one per run
(spec section 3): the tick counter and the settled-system mapping, kept as an
association list keyed by system id. -/
structure WorldState where
  tick : ℕ
  systems : List (String × SystemState)
deriving DecidableEq, Repr

/-- Simulated years advanced per tick (spec section 3: fixed constant,
0.25 in the reference model). -/
def year_per_tick : ℚ := 1 / 4

/-- Default logistic growth rate: 2 percent per tick (spec section 4.2). -/
def growth_rate : ℚ := 1 / 50

/-- Default carrying capacity: very large for the reference model
(spec section 4.2); one billion reproduces the documented 50-tick
verification run. -/
def carrying_capacity : ℚ := 1000000000

/-- Configured initial population of the starting system
(spec section 4.1: e.g. 10,000,000). -/
def initial_population : ℕ := 10000000

/-- Initial tech level of the starting colony (configuration). -/
def initial_tech : ℚ := 1

/-- Initial internal cohesion of the starting colony (configuration). -/
def initial_cohesion : ℚ := 7 / 10

/-- Deterministic tech-level drift applied by the Population Model each tick
(spec section 4.1 step 1: the Population Model updates population and
tech_level). -/
def tech_rate : ℚ := 1 / 100

/-- Economy Model productivity constant (spec section 4.3). -/
def productivity_constant : ℚ := 1 / 1000

/-- Economy Model fixed per-capita consumption constant (spec section 4.3). -/
def consumption_per_capita : ℚ := 1 / 1000

/-- Politics Model cohesion reward/penalty magnitude (spec section 4.4:
coefficients are configuration). -/
def cohesion_gain : ℚ := 3 / 400

/-- Hysteresis low threshold: an independence movement starts once cohesion
drops below this (spec section 4.4). -/
def indep_low : ℚ := 3 / 10

/-- Hysteresis high threshold: an independence movement ends once cohesion
recovers above this (spec section 4.4). -/
def indep_high : ℚ := 6 / 10

/-- Minimum population for an independence movement (spec section 4.4). -/
def indep_min_pop : ℕ := 1000000

/-- Low-water trade-balance threshold flagging shortage candidates
(spec section 4.3). -/
def shortage_low_water : ℚ := 0

/-- Trigger probability (per thousand) of a discovery event per system per
tick (configuration, spec section 4.5). -/
def p_discovery : ℕ := 50

/-- Trigger probability (per thousand) of a conflict event. -/
def p_conflict : ℕ := 40

/-- Trigger probability (per thousand) of a migration wave on an eligible
system. -/
def p_migration : ℕ := 25

/-- Trigger probability (per thousand) of a shortage event on a shortage
candidate. -/
def p_shortage : ℕ := 100

/-- Trigger probability (per thousand) of the rare global tech breakthrough. -/
def p_breakthrough : ℕ := 10

/-- Tech level above which a system attracts migration waves
(spec section 4.5: high-tech, high-cohesion systems attract immigrants). -/
def migration_tech_min : ℚ := 2

/-- Cohesion above which a system attracts migration waves. -/
def migration_cohesion_min : ℚ := 3 / 5

/-- Model version recorded in run identity and snapshots. -/
def default_model_version : String := "0.4.0"

/-- Deterministic 32-bit linear congruential generator advancing an RNG
sub-stream state (spec section 2: a single seeded generator subdivided into
named sub-streams). -/
def lcgNext (s : ℕ) : ℕ := (1664525 * s + 1013904223) % 4294967296

/-- Deterministic hash of a sub-stream name (spec section 9: sub-streams are
derived via a deterministic hash of seed and stream name). -/
def streamNameHash (name : String) : ℕ :=
  name.data.foldl (fun a c => (a * 31 + c.toNat) % 4294967296) 7

/-- Derives the starting state of a named RNG sub-stream from the run seed
(spec sections 2 and 9). -/
def subStreamSeed (seed : ℕ) (name : String) : ℕ :=
  (seed + streamNameHash name) % 4294967296

/-- Round half to even of a rational, as the spec requires for the population
update (spec section 4.2: clamped to a non-negative integer via deterministic
round-half-to-even). -/
def roundHalfEven (q : ℚ) : ℤ :=
  let f := ⌊q⌋
  let r := q - f
  if r < 1 / 2 then f
  else if 1 / 2 < r then f + 1
  else if f % 2 = 0 then f else f + 1

/-- Migration pressure stub hook (spec section 4.2): a function of cohesion
and tech level that currently returns zero net migration but is invoked every
tick. -/
def migrationPressure (_cohesion _tech : ℚ) : ℤ := 0

/-- Population Model (spec section 4.2): logistic growth
`pop + pop * growth_rate * (1 - pop / carrying_capacity)` rounded
half-to-even and clamped non-negative, plus the zero migration stub; the
Population Model also advances tech_level (spec section 4.1 step 1). -/
def popUpdate (st : SystemState) : SystemState :=
  let p : ℚ := st.population
  let grown := p + p * growth_rate * (1 - p / carrying_capacity)
  let rounded := (roundHalfEven grown).toNat
  let settled := ((rounded : ℤ) + migrationPressure st.internal_cohesion st.tech_level).toNat
  { st with population := settled, tech_level := st.tech_level + tech_rate }

/-- Economy Model (spec section 4.3):
`economic_output = population * tech_level * productivity_constant` and
`trade_balance = economic_output - consumption(population)`, computed from
the population and tech already updated this tick. -/
def econUpdate (st : SystemState) : SystemState :=
  let out := (st.population : ℚ) * st.tech_level * productivity_constant
  let tb := out - consumption_per_capita * (st.population : ℚ)
  { st with economic_output := out, trade_balance := tb }

/-- Clamp a rational into [0, 1]. -/
def clamp01 (q : ℚ) : ℚ := max 0 (min 1 q)

/-- Cohesion update summand (spec section 4.4): rewards a positive trade
balance and penalizes a negative one; a pure function of the system's own
current-tick state. -/
def cohesionDelta (tb : ℚ) : ℚ :=
  if 0 < tb then cohesion_gain else if tb < 0 then -cohesion_gain else 0

/-- Politics Model (spec section 4.4): cohesion update clamped to [0,1] and
the independence-movement hysteresis: the flag turns on once cohesion drops
below `indep_low` with population above `indep_min_pop`, and stays on until
cohesion recovers above `indep_high`. -/
def politicsUpdate (st : SystemState) : SystemState :=
  let c := clamp01 (st.internal_cohesion + cohesionDelta st.trade_balance)
  let indep :=
    if st.has_independence_movement then decide (¬ indep_high < c)
    else decide (c < indep_low) && decide (indep_min_pop < st.population)
  { st with internal_cohesion := c, has_independence_movement := indep }

/-- Per-event-type trigger thresholds (per thousand), configuration of the
Event Generator (spec section 4.5). -/
def eventThreshold : EventType → ℕ
  | .discovery => p_discovery
  | .conflict => p_conflict
  | .migration_wave => p_migration
  | .resource_shortage => p_shortage
  | .tech_breakthrough => p_breakthrough

/-- Per-system trigger condition of each candidate event type
(spec section 4.5); tech breakthroughs are globally scoped, so their
per-system condition is false. -/
def eventCondition : EventType → SystemState → Bool
  | .discovery, _ => true
  | .conflict, _ => true
  | .migration_wave, st =>
      decide (migration_tech_min ≤ st.tech_level) &&
      decide (migration_cohesion_min ≤ st.internal_cohesion)
  | .resource_shortage, st => decide (st.trade_balance < shortage_low_water)
  | .tech_breakthrough, _ => false

/-- Free-text description attached to each event type. -/
def eventDescription : EventType → String
  | .discovery => "tech advancement"
  | .conflict => "resource competition"
  | .migration_wave => "immigration toward a high-tech high-cohesion system"
  | .resource_shortage => "trade balance below the low-water mark"
  | .tech_breakthrough => "rare global tech breakthrough"

/-- Event Generator, one event type over all systems: every system gets its
own draw from the `events` sub-stream whether or not the event fires, so that
draw sequences never shift (spec section 4.5). -/
def genTypeEvents (t : ℕ) (ty : EventType) :
    List (String × SystemState) → ℕ → List EventRecord × ℕ
  | [], rng => ([], rng)
  | (sysId, st) :: rest, rng =>
      let d := lcgNext rng
      let res := genTypeEvents t ty rest d
      ((if eventCondition ty st && decide (d % 1000 < eventThreshold ty)
          then [⟨t, ty, sysId, eventDescription ty⟩] else []) ++ res.1, res.2)

/-- Event Generator, all per-system event types in the fixed type-priority
order (spec section 4.5). -/
def genAllTypes (t : ℕ) :
    List EventType → List (String × SystemState) → ℕ → List EventRecord × ℕ
  | [], _, rng => ([], rng)
  | ty :: tys, systems, rng =>
      let r1 := genTypeEvents t ty systems rng
      let r2 := genAllTypes t tys systems r1.2
      (r1.1 ++ r2.1, r2.2)

/-- The per-system candidate event types, listed in type-priority order. -/
def perSystemEventTypes : List EventType :=
  [.discovery, .conflict, .migration_wave, .resource_shortage]

/-- Event Generator for one tick (spec section 4.5): the four per-system
types in priority order, then the single globally-scoped tech-breakthrough
draw, appended last. -/
def genEvents (t : ℕ) (systems : List (String × SystemState)) (rng : ℕ) :
    List EventRecord × ℕ :=
  let r1 := genAllTypes t perSystemEventTypes systems rng
  let d := lcgNext r1.2
  (r1.1 ++
     (if decide (d % 1000 < p_breakthrough)
        then [⟨t, .tech_breakthrough, "global", eventDescription .tech_breakthrough⟩]
        else []),
   d)

/-- Modelled from the spec: the Simulation Engine (spec sections 3 and 4.1):
immutable run identity, the control state, the world state, the append-only
EventLog, and the four named RNG sub-stream states derived from the seed
(only the `events` sub-stream is consumed by the reference models). -/
structure Engine where
  run_id : String
  world_build_id : String
  starting_system : String
  seed : ℕ
  model_version : String
  state : EngState
  world : WorldState
  events : List EventRecord
  rng_population : ℕ
  rng_economy : ℕ
  rng_politics : ℕ
  rng_events : ℕ
deriving DecidableEq, Repr

/-- The default colony settled at engine construction (spec section 3:
WorldState starts at tick 0 with the starting system holding the configured
initial population). -/
def initialSystem : SystemState :=
  { population := initial_population
    tech_level := initial_tech
    internal_cohesion := initial_cohesion
    economic_output := 0
    trade_balance := 0
    has_independence_movement := false }

/-- Modelled from the spec: `create(world_build_id, starting_system, seed)`
(spec section 4.1): constructs an idle engine at tick 0 with one settled
system and all RNG sub-streams derived deterministically from the seed; the
engine is fully reconstructable from these inputs (spec section 6), so the
run identity is derived from them as well. -/
def create_engine (world_build_id starting_system : String) (seed : ℕ) : Engine :=
  { run_id := "run_" ++ world_build_id ++ "_" ++ toString seed
    world_build_id := world_build_id
    starting_system := starting_system
    seed := seed
    model_version := default_model_version
    state := .idle
    world := { tick := 0, systems := [(starting_system, initialSystem)] }
    events := []
    rng_population := subStreamSeed seed "population"
    rng_economy := subStreamSeed seed "economy"
    rng_politics := subStreamSeed seed "politics"
    rng_events := subStreamSeed seed "events" }

/-- Modelled from the spec: the Phase 04 test script constructs engines with
only `world_build_id` and `seed`, so `starting_system` carries a default;
the documented reference runs all start at Sol. -/
def create_engine_default (world_build_id : String) (seed : ℕ) : Engine :=
  create_engine world_build_id "Sol" seed

/-- One whole tick over a world state (spec section 4.1, fixed phase order):
(1) Population Model, (2) Economy Model on the updated population/tech,
(3) Politics Model on the updated economic figures, (4) Event Generator on
the fully updated state, (5) tick counter increment. -/
def tickOnce (w : WorldState) (rng : ℕ) : WorldState × List EventRecord × ℕ :=
  let s1 := w.systems.map fun p => (p.1, popUpdate p.2)
  let s2 := s1.map fun p => (p.1, econUpdate p.2)
  let s3 := s2.map fun p => (p.1, politicsUpdate p.2)
  let r := genEvents w.tick s3 rng
  ({ tick := w.tick + 1, systems := s3 }, r.1, r.2)

/-- One whole tick of the engine: the world is advanced, the tick's events
are appended to the EventLog, and the `events` RNG sub-stream state moves
forward. -/
def tickEngine (e : Engine) : Engine :=
  let r := tickOnce e.world e.rng_events
  { e with world := r.1, events := e.events ++ r.2.1, rng_events := r.2.2 }

/-- Advance a whole number of ticks. -/
def applyTicks : ℕ → Engine → Engine
  | 0, e => e
  | n + 1, e => applyTicks n (tickEngine e)

/-- Modelled from the spec: `step(n)` (spec section 4.1): fails with
`InvalidArgument` if n is not positive, may be called from idle, running or
paused-after-resume but not from completed (`AlreadyCompleted`) or from a
paused run (`NotRunnable`), and otherwise advances exactly n ticks, ignoring
any walltime budget. -/
def Engine.step (e : Engine) (n : ℤ) : Except SimError Engine :=
  if n ≤ 0 then .error .invalidArgument
  else
    match e.state with
    | .completed => .error .alreadyCompleted
    | .paused => .error .notRunnable
    | .failed => .error .notRunnable
    | _ => .ok (applyTicks n.toNat { e with state := .running })

/-- Modelled from the spec: `pause()` (spec section 4.1 and section 8):
transitions running to paused; on an already-paused run it is a no-op
returning success. -/
def Engine.pause (e : Engine) : Except SimError Engine :=
  match e.state with
  | .running => .ok { e with state := .paused }
  | .paused => .ok e
  | _ => .error .notRunnable

/-- Modelled from the spec: `resume()` (spec section 4.1): transitions
paused back to running. -/
def Engine.resume (e : Engine) : Except SimError Engine :=
  match e.state with
  | .paused => .ok { e with state := .running }
  | _ => .error .notRunnable

/-- The tick loop of `run` (spec sections 4.1 and 5): before each tick it
honours a pending pause request, then the remaining wall-clock budget —
modelled abstractly as a fuel counter decremented between ticks by a per-tick
cost oracle, since the spec fixes only that the budget is checked between
ticks and never interrupts a tick.  Returns the stopped engine and whether
`max_ticks` was reached. -/
def runLoop : Engine → ℕ → ℕ → (ℕ → ℕ) → (ℕ → Bool) → Engine × Bool
  | e, 0, _, _, _ => ({ e with state := .completed }, true)
  | e, m + 1, budget, costs, pauseReq =>
      if pauseReq e.world.tick then ({ e with state := .paused }, false)
      else if budget = 0 then (e, false)
      else runLoop (tickEngine e) m (budget - costs e.world.tick) costs pauseReq

/-- Modelled from the spec: `run(max_ticks, max_walltime)` (spec
section 4.1): advances ticks until `max_ticks` is reached, the walltime
budget is exhausted, or the engine is paused; a mutating call on a paused,
completed or failed run fails with the matching error.  Returns true exactly
when `max_ticks` was reached. -/
def Engine.run (e : Engine) (maxTicks budget : ℕ) (costs : ℕ → ℕ)
    (pauseReq : ℕ → Bool) : Except SimError (Engine × Bool) :=
  match e.state with
  | .completed => .error .alreadyCompleted
  | .paused => .error .notRunnable
  | .failed => .error .notRunnable
  | _ => .ok (runLoop { e with state := .running } maxTicks budget costs pauseReq)

/-- Modelled from the spec: the per-system projection exposed in snapshots
(spec section 6, `settled_systems`). -/
structure SettledView where
  system_id : String
  population : ℕ
  tech_level : ℚ
  internal_cohesion : ℚ
  has_independence_movement : Bool
deriving DecidableEq, Repr

/-- Modelled from the spec: the Snapshot, an immutable point-in-time
projection of WorldState, EventLog and run identity (spec sections 3 and 6).
The wall-clock `created_at` timestamp of the transport contract is not part
of the model: real time has no shallow embedding. -/
structure Snapshot where
  run_id : String
  tick : ℕ
  simulated_year : ℚ
  systems_populated : ℕ
  total_population : ℕ
  state : EngState
  events : List EventRecord
  settled_systems : List SettledView
  seed : ℕ
  model_version : String
  source_build_id : String
deriving DecidableEq, Repr

/-- Modelled from the spec: `snapshot()` (spec sections 4.1 and 6): callable
in any state, never mutates, and projects the world state, event log and run
identity. -/
def Engine.snapshot (e : Engine) : Snapshot :=
  { run_id := e.run_id
    tick := e.world.tick
    simulated_year := (e.world.tick : ℚ) * year_per_tick
    systems_populated := e.world.systems.length
    total_population := (e.world.systems.map fun p => p.2.population).sum
    state := e.state
    events := e.events
    settled_systems := e.world.systems.map fun p =>
      { system_id := p.1
        population := p.2.population
        tech_level := p.2.tech_level
        internal_cohesion := p.2.internal_cohesion
        has_independence_movement := p.2.has_independence_movement }
    seed := e.seed
    model_version := e.model_version
    source_build_id := e.world_build_id }

/-- Embeds `simStep` from `src/02_CLIENTS/01_WEB/src/pages/StarMapPage.tsx`:
`simStep(runId, interval = 1)` posts the step request with the supplied
interval, defaulting to 1 when the caller supplies none. -/
def simStepInterval (interval : Option ℤ) : ℤ := interval.getD 1

/-- Embeds `handleStep` of the simulation control page
(`src/unnamed/part_000`): the page's only step call is `simStep(runId, 10)`. -/
def handleStepInterval : ℤ := simStepInterval (some 10)

/-- The step intervals this web client can send: the `simStep` default used
when a caller supplies no interval, and the simulation page's explicit
request of 10. -/
def clientStepIntervals : List ℤ := [simStepInterval none, handleStepInterval]

lemma tickEngine_state (e : Engine) : (tickEngine e).state = e.state := rfl

lemma applyTicks_state (n : ℕ) (e : Engine) : (applyTicks n e).state = e.state := by
  induction n generalizing e with
  | zero => rfl
  | succ n ih => rw [applyTicks, ih, tickEngine_state]

lemma tickEngine_tick (e : Engine) : (tickEngine e).world.tick = e.world.tick + 1 := rfl

lemma applyTicks_tick (n : ℕ) (e : Engine) :
    (applyTicks n e).world.tick = e.world.tick + n := by
  induction n generalizing e with
  | zero => rfl
  | succ n ih => rw [applyTicks, ih, tickEngine_tick]; omega

lemma applyTicks_add (m n : ℕ) (e : Engine) :
    applyTicks (m + n) e = applyTicks n (applyTicks m e) := by
  induction m generalizing e with
  | zero => rw [Nat.zero_add]; rfl
  | succ m ih =>
      have h1 : m + 1 + n = (m + n) + 1 := by omega
      rw [h1, applyTicks, applyTicks, ih]

lemma set_state_eq (e : Engine) {s : EngState} (h : e.state = s) :
    { e with state := s } = e := by
  subst h; cases e; rfl

lemma step_runnable (e : Engine) (n : ℤ) (hn : 0 < n)
    (h : e.state = .idle ∨ e.state = .running) :
    e.step n = .ok (applyTicks n.toNat { e with state := .running }) := by
  have hn' : ¬ n ≤ 0 := by omega
  rcases h with h | h <;> rw [Engine.step, if_neg hn', h]

lemma tickEngine_systems_length (e : Engine) :
    (tickEngine e).world.systems.length = e.world.systems.length := by
  simp [tickEngine, tickOnce]

lemma applyTicks_systems_length (n : ℕ) (e : Engine) :
    (applyTicks n e).world.systems.length = e.world.systems.length := by
  induction n generalizing e with
  | zero => rfl
  | succ n ih => rw [applyTicks, ih, tickEngine_systems_length]

lemma tickEngine_events (e : Engine) :
    (tickEngine e).events =
      e.events ++ (genEvents e.world.tick (tickOnce e.world e.rng_events).1.systems e.rng_events).1 := rfl

lemma applyTicks_events_extend (n : ℕ) (e : Engine) :
    ∃ l, (applyTicks n e).events = e.events ++ l := by
  induction n generalizing e with
  | zero => exact ⟨[], by simp [applyTicks]⟩
  | succ n ih =>
      obtain ⟨l, hl⟩ := ih (tickEngine e)
      refine ⟨(genEvents e.world.tick (tickOnce e.world e.rng_events).1.systems e.rng_events).1 ++ l, ?_⟩
      rw [applyTicks, hl, tickEngine_events, List.append_assoc]

/-- EventLog ordering relation: chronological by tick, with the fixed
type-priority order within a tick (spec sections 3 and 4.5). -/
def evLE (a b : EventRecord) : Prop :=
  a.tick < b.tick ∨ (a.tick = b.tick ∧ eventPriority a.event_type ≤ eventPriority b.event_type)

lemma genTypeEvents_mem (t : ℕ) (ty : EventType) :
    ∀ (systems : List (String × SystemState)) (rng : ℕ) (ev : EventRecord),
      ev ∈ (genTypeEvents t ty systems rng).1 → ev.tick = t ∧ ev.event_type = ty := by
  intro systems
  induction systems with
  | nil => intro rng ev h; simp [genTypeEvents] at h
  | cons p rest ih =>
      intro rng ev h
      obtain ⟨sysId, st⟩ := p
      simp only [genTypeEvents, List.mem_append] at h
      rcases h with h | h
      · split at h
        · simp only [List.mem_singleton] at h; subst h; exact ⟨rfl, rfl⟩
        · simp at h
      · exact ih _ ev h

lemma genAllTypes_mem (t : ℕ) :
    ∀ (tys : List EventType) (systems : List (String × SystemState)) (rng : ℕ)
      (ev : EventRecord),
      ev ∈ (genAllTypes t tys systems rng).1 → ev.tick = t ∧ ev.event_type ∈ tys := by
  intro tys
  induction tys with
  | nil => intro systems rng ev h; simp [genAllTypes] at h
  | cons ty tys ih =>
      intro systems rng ev h
      simp only [genAllTypes, List.mem_append] at h
      rcases h with h | h
      · obtain ⟨h1, h2⟩ := genTypeEvents_mem t ty systems rng ev h
        exact ⟨h1, by rw [h2]; exact List.mem_cons_self _ _⟩
      · obtain ⟨h1, h2⟩ := ih _ _ ev h
        exact ⟨h1, List.mem_cons_of_mem _ h2⟩

lemma genTypeEvents_pairwise (t : ℕ) (ty : EventType)
    (systems : List (String × SystemState)) (rng : ℕ) :
    List.Pairwise (fun a b => eventPriority a.event_type ≤ eventPriority b.event_type)
      (genTypeEvents t ty systems rng).1 := by
  apply List.pairwise_of_forall_mem_list
  intro a ha b hb
  rw [(genTypeEvents_mem t ty systems rng a ha).2, (genTypeEvents_mem t ty systems rng b hb).2]

lemma genAllTypes_pairwise (t : ℕ) :
    ∀ (tys : List EventType) (systems : List (String × SystemState)) (rng : ℕ),
      List.Pairwise (fun x y => eventPriority x ≤ eventPriority y) tys →
      List.Pairwise (fun a b => eventPriority a.event_type ≤ eventPriority b.event_type)
        (genAllTypes t tys systems rng).1 := by
  intro tys
  induction tys with
  | nil => intro systems rng _; simp [genAllTypes]
  | cons ty tys ih =>
      intro systems rng hp
      simp only [genAllTypes]
      rw [List.pairwise_append]
      obtain ⟨hhead, htail⟩ := List.pairwise_cons.mp hp
      refine ⟨genTypeEvents_pairwise t ty systems rng, ih _ _ htail, ?_⟩
      intro a ha b hb
      rw [(genTypeEvents_mem t ty systems rng a ha).2]
      exact hhead _ (genAllTypes_mem t tys systems _ b hb).2

lemma eventPriority_le_four (ty : EventType) : eventPriority ty ≤ 4 := by
  cases ty <;> simp [eventPriority]

lemma perSystemEventTypes_pairwise :
    List.Pairwise (fun x y => eventPriority x ≤ eventPriority y) perSystemEventTypes := by
  decide

lemma genEvents_mem (t : ℕ) (systems : List (String × SystemState)) (rng : ℕ)
    (ev : EventRecord) (h : ev ∈ (genEvents t systems rng).1) : ev.tick = t := by
  simp only [genEvents, List.mem_append] at h
  rcases h with h | h
  · exact (genAllTypes_mem t _ systems rng ev h).1
  · split at h
    · simp only [List.mem_singleton] at h; subst h; rfl
    · simp at h

lemma genEvents_pairwise (t : ℕ) (systems : List (String × SystemState)) (rng : ℕ) :
    List.Pairwise (fun a b => eventPriority a.event_type ≤ eventPriority b.event_type)
      (genEvents t systems rng).1 := by
  simp only [genEvents]
  rw [List.pairwise_append]
  refine ⟨genAllTypes_pairwise t _ systems rng perSystemEventTypes_pairwise, ?_, ?_⟩
  · split <;> simp
  · intro a ha b hb
    have hb' : b.event_type = .tech_breakthrough := by
      split at hb
      · simp only [List.mem_singleton] at hb; subst hb; rfl
      · simp at hb
    rw [hb']
    exact eventPriority_le_four _

/-- The EventLog invariant maintained by the tick loop: the log is sorted by
the chronological-then-priority order, and every logged event belongs to an
already-completed tick. -/
def EventsInv (e : Engine) : Prop :=
  List.Pairwise evLE e.events ∧ ∀ ev ∈ e.events, ev.tick < e.world.tick

lemma EventsInv_tickEngine {e : Engine} (h : EventsInv e) : EventsInv (tickEngine e) := by
  obtain ⟨hp, ht⟩ := h
  constructor
  · rw [tickEngine_events, List.pairwise_append]
    refine ⟨hp, ?_, ?_⟩
    · refine List.Pairwise.imp_of_mem ?_ (genEvents_pairwise e.world.tick _ e.rng_events)
      intro a b ha hb hprio
      exact Or.inr ⟨by rw [genEvents_mem _ _ _ a ha, genEvents_mem _ _ _ b hb], hprio⟩
    · intro a ha b hb
      exact Or.inl (by rw [genEvents_mem _ _ _ b hb]; exact ht a ha)
  · intro ev hev
    rw [tickEngine_events] at hev
    rw [tickEngine_tick]
    rcases List.mem_append.mp hev with h | h
    · have := ht ev h; omega
    · rw [genEvents_mem _ _ _ ev h]; omega

lemma EventsInv_applyTicks (n : ℕ) {e : Engine} (h : EventsInv e) :
    EventsInv (applyTicks n e) := by
  induction n generalizing e with
  | zero => exact h
  | succ n ih => rw [applyTicks]; exact ih (EventsInv_tickEngine h)

lemma create_EventsInv (wb ss : String) (s : ℕ) : EventsInv (create_engine wb ss s) := by
  constructor
  · simp [create_engine]
  · intro ev hev; simp [create_engine] at hev

lemma applyTicks_succ (n : ℕ) (e : Engine) :
    applyTicks (n + 1) e = applyTicks n (tickEngine e) := rfl

lemma runLoop_spec (m : ℕ) :
    ∀ (e : Engine) (budget : ℕ) (costs : ℕ → ℕ) (pauseReq : ℕ → Bool),
      ∃ k, k ≤ m ∧
        (runLoop e m budget costs pauseReq).1.world = (applyTicks k e).world ∧
        (runLoop e m budget costs pauseReq).1.events = (applyTicks k e).events ∧
        ((runLoop e m budget costs pauseReq).2 = true ↔ k = m) := by
  induction m with
  | zero =>
      intro e budget costs pauseReq
      exact ⟨0, Nat.le_refl 0, rfl, rfl, by simp [runLoop]⟩
  | succ m ih =>
      intro e budget costs pauseReq
      by_cases hp : pauseReq e.world.tick
      · have hr : runLoop e (m + 1) budget costs pauseReq = ({ e with state := .paused }, false) := by
          rw [runLoop, if_pos hp]
        exact ⟨0, by omega, by rw [hr]; rfl, by rw [hr]; rfl, by rw [hr]; simp⟩
      · by_cases hb : budget = 0
        · have hr : runLoop e (m + 1) budget costs pauseReq = (e, false) := by
            rw [runLoop, if_neg hp, if_pos hb]
          exact ⟨0, by omega, by rw [hr]; rfl, by rw [hr]; rfl, by rw [hr]; simp⟩
        · have hr : runLoop e (m + 1) budget costs pauseReq =
              runLoop (tickEngine e) m (budget - costs e.world.tick) costs pauseReq := by
            rw [runLoop, if_neg hp, if_neg hb]
          obtain ⟨k, hk, hw, he, hiff⟩ := ih (tickEngine e) (budget - costs e.world.tick) costs pauseReq
          refine ⟨k + 1, by omega, ?_, ?_, ?_⟩
          · rw [hr, hw, applyTicks_succ]
          · rw [hr, he, applyTicks_succ]
          · rw [hr, hiff]; omega

lemma tickEngine_world_congr {e₁ e₂ : Engine} (hw : e₁.world = e₂.world)
    (hr : e₁.rng_events = e₂.rng_events) :
    (tickEngine e₁).world = (tickEngine e₂).world ∧
    (tickEngine e₁).rng_events = (tickEngine e₂).rng_events := by
  constructor <;> simp [tickEngine, hw, hr]

lemma applyTicks_world_congr (n : ℕ) :
    ∀ {e₁ e₂ : Engine}, e₁.world = e₂.world → e₁.rng_events = e₂.rng_events →
      (applyTicks n e₁).world = (applyTicks n e₂).world ∧
      (applyTicks n e₁).rng_events = (applyTicks n e₂).rng_events := by
  induction n with
  | zero => intro e₁ e₂ hw hr; exact ⟨hw, hr⟩
  | succ n ih =>
      intro e₁ e₂ hw hr
      obtain ⟨hw', hr'⟩ := tickEngine_world_congr hw hr
      rw [applyTicks_succ, applyTicks_succ]
      exact ih hw' hr'

/-- The simulation-relevant observables of a snapshot used by the Phase 04
determinism check: tick, total population, and systems populated. -/
def obsTriple (e : Engine) : ℕ × ℕ × ℕ :=
  (e.snapshot.tick, e.snapshot.total_population, e.snapshot.systems_populated)

lemma snapshot_tick (e : Engine) : e.snapshot.tick = e.world.tick := rfl

lemma snapshot_systems_populated (e : Engine) :
    e.snapshot.systems_populated = e.world.systems.length := rfl

/-- Claim C1: for every seed s and tick count n, two freshly constructed
engines built with identical (world_build_id, starting_system, seed) produce
field-for-field equal snapshots after step(n).  The engine is a pure function
of its construction inputs, so the two snapshot projections coincide
exactly. -/
theorem snapshot_determinism (wb ss : String) (s : ℕ) (n : ℤ) (e₁ e₂ : Engine)
    (h₁ : e₁ = create_engine wb ss s) (h₂ : e₂ = create_engine wb ss s) :
    Except.map Engine.snapshot (e₁.step n) = Except.map Engine.snapshot (e₂.step n) := by
  subst h₁; subst h₂; rfl

/-- Witness for C1 at the documented determinism check inputs
(seed 12345, starting system Sol, 10 ticks). -/
theorem snapshot_determinism_witness :
    Except.map Engine.snapshot ((create_engine "wb_test" "Sol" 12345).step 10) =
      Except.map Engine.snapshot ((create_engine "wb_test" "Sol" 12345).step 10) :=
  snapshot_determinism "wb_test" "Sol" 12345 10 _ _ rfl rfl

/-- Claim C2: from a runnable state, run(max_ticks, walltime budget) succeeds
and stops after some whole number k of fully applied ticks with k ≤ max_ticks
(no tick is ever partially applied: the resulting world and event log are
exactly those of k complete ticks), and it returns true exactly when
max_ticks was reached, false whenever it stopped early for any other reason
(pause request or exhausted budget). -/
theorem run_contract (e : Engine) (maxTicks budget : ℕ) (costs : ℕ → ℕ)
    (pauseReq : ℕ → Bool) (h : e.state = .idle ∨ e.state = .running) :
    ∃ res, e.run maxTicks budget costs pauseReq = .ok res ∧
      ∃ k, k ≤ maxTicks ∧
        res.1.world = (applyTicks k { e with state := .running }).world ∧
        res.1.events = (applyTicks k { e with state := .running }).events ∧
        (res.2 = true ↔ k = maxTicks) := by
  have hrun : e.run maxTicks budget costs pauseReq =
      .ok (runLoop { e with state := .running } maxTicks budget costs pauseReq) := by
    rcases h with h | h <;> rw [Engine.run, h]
  obtain ⟨k, hk, hw, he, hiff⟩ :=
    runLoop_spec maxTicks { e with state := .running } budget costs pauseReq
  exact ⟨_, hrun, k, hk, hw, he, hiff⟩

/-- Witness for C2 on a fresh engine with 2 requested ticks, ample budget,
unit per-tick cost and no pause request. -/
theorem run_contract_witness :
    ∃ res, (create_engine "wb_test" "Sol" 12345).run 2 100 (fun _ => 1) (fun _ => false) =
        .ok res ∧
      ∃ k, k ≤ 2 ∧
        res.1.world = (applyTicks k { create_engine "wb_test" "Sol" 12345 with
          state := .running }).world ∧
        res.1.events = (applyTicks k { create_engine "wb_test" "Sol" 12345 with
          state := .running }).events ∧
        (res.2 = true ↔ k = 2) :=
  run_contract (create_engine "wb_test" "Sol" 12345) 2 100 (fun _ => 1) (fun _ => false)
    (Or.inl rfl)

/-- Claim C3: on a freshly constructed engine, step(5) followed by step(5)
yields the same final result as a single step(10), for any seed. -/
theorem step_five_then_five_eq_step_ten (wb ss : String) (s : ℕ) :
    ((create_engine wb ss s).step 5 >>= fun e => e.step 5) =
      (create_engine wb ss s).step 10 := by
  rw [step_runnable (create_engine wb ss s) 5 (by omega) (Or.inl rfl)]
  show (applyTicks (5 : ℤ).toNat { create_engine wb ss s with state := .running }).step 5 =
    (create_engine wb ss s).step 10
  have hst : (applyTicks (5 : ℤ).toNat
      { create_engine wb ss s with state := .running }).state = .running := by
    rw [applyTicks_state]
  rw [step_runnable _ 5 (by omega) (Or.inr hst), set_state_eq _ hst,
    step_runnable (create_engine wb ss s) 10 (by omega) (Or.inl rfl)]
  have h5 : (5 : ℤ).toNat = 5 := rfl
  have h10 : (10 : ℤ).toNat = 10 := rfl
  rw [h5, h10, show (10 : ℕ) = 5 + 5 from rfl, applyTicks_add]

/-- Claim C4: starting from a fresh engine and advancing any number of
ticks, the EventLog is sorted by the chronological-then-type-priority order;
in particular the tick sequence is non-decreasing, and within one tick the
fixed type-priority order (discovery, conflict, migration_wave,
resource_shortage, tech_breakthrough) holds — so a same-tick discovery always
precedes a same-tick conflict.  Moreover the log is append-only: the log
after m ≤ n ticks is a prefix of the log after n ticks. -/
theorem eventlog_append_only_and_ordered (wb ss : String) (s : ℕ) (n : ℕ) :
    List.Pairwise evLE (applyTicks n (create_engine wb ss s)).events ∧
    List.Pairwise (fun a b => a.tick ≤ b.tick)
      (applyTicks n (create_engine wb ss s)).events ∧
    List.Pairwise (fun a b => a.tick = b.tick →
        eventPriority a.event_type ≤ eventPriority b.event_type)
      (applyTicks n (create_engine wb ss s)).events ∧
    ∀ m, m ≤ n → ∃ l,
      (applyTicks n (create_engine wb ss s)).events =
        (applyTicks m (create_engine wb ss s)).events ++ l := by
  have hinv := EventsInv_applyTicks n (create_EventsInv wb ss s)
  refine ⟨hinv.1, hinv.1.imp ?_, hinv.1.imp ?_, ?_⟩
  · intro a b h
    rcases h with h | ⟨h, _⟩ <;> omega
  · intro a b h heq
    rcases h with h | ⟨_, h2⟩
    · omega
    · exact h2
  · intro m hm
    rw [show n = m + (n - m) from by omega, applyTicks_add]
    exact applyTicks_events_extend _ _

/-- Witness for C4: the event log after 2 ticks is a prefix of the log after
3 ticks (seed 999). -/
theorem eventlog_append_only_and_ordered_witness :
    ∃ l, (applyTicks 3 (create_engine "wb_test" "Sol" 999)).events =
      (applyTicks 2 (create_engine "wb_test" "Sol" 999)).events ++ l :=
  (eventlog_append_only_and_ordered "wb_test" "Sol" 999 3).2.2.2 2 (by decide)

/-- Claim C5: step(n) with n ≤ 0 fails with InvalidArgument (no engine is
produced, so no tick is applied), and step(n) with n > 0 from a runnable
state succeeds and advances the tick counter by exactly n, with no walltime
budget involved. -/
theorem step_contract (e : Engine) (n : ℤ) :
    (n ≤ 0 → e.step n = .error .invalidArgument) ∧
    (0 < n → e.state = .idle ∨ e.state = .running →
      ∃ e', e.step n = .ok e' ∧ (e'.world.tick : ℤ) = (e.world.tick : ℤ) + n) := by
  constructor
  · intro h; rw [Engine.step, if_pos h]
  · intro hn hst
    refine ⟨_, step_runnable e n hn hst, ?_⟩
    rw [applyTicks_tick]
    show ((e.world.tick + n.toNat : ℕ) : ℤ) = (e.world.tick : ℤ) + n
    omega

/-- Witness for C5: step(-1) fails with InvalidArgument, and step(3) on a
fresh engine advances the tick counter from 0 to 3. -/
theorem step_contract_witness :
    (create_engine "wb_test" "Sol" 7).step (-1) = .error .invalidArgument ∧
    ∃ e', (create_engine "wb_test" "Sol" 7).step 3 = .ok e' ∧
      (e'.world.tick : ℤ) = ((create_engine "wb_test" "Sol" 7).world.tick : ℤ) + 3 :=
  ⟨(step_contract (create_engine "wb_test" "Sol" 7) (-1)).1 (by decide),
   (step_contract (create_engine "wb_test" "Sol" 7) 3).2 (by decide) (Or.inl rfl)⟩

/-- Claim C6: pause() on an already-paused run is a no-op returning success,
not an error; step and run on the paused run fail with NotRunnable; and after
resume() the run is running again and step succeeds. -/
theorem pause_contract (e : Engine) (h : e.state = .paused) :
    e.pause = .ok e ∧
    (∀ n : ℤ, 0 < n → e.step n = .error .notRunnable) ∧
    (∀ (maxTicks budget : ℕ) (costs : ℕ → ℕ) (pauseReq : ℕ → Bool),
      e.run maxTicks budget costs pauseReq = .error .notRunnable) ∧
    ∃ e', e.resume = .ok e' ∧ e'.state = .running ∧
      ∀ n : ℤ, 0 < n → ∃ e'', e'.step n = .ok e'' := by
  refine ⟨?_, ?_, ?_, ?_⟩
  · rw [Engine.pause, h]
  · intro n hn; rw [Engine.step, if_neg (by omega), h]
  · intro maxTicks budget costs pauseReq; rw [Engine.run, h]
  · refine ⟨{ e with state := .running }, by rw [Engine.resume, h], rfl, ?_⟩
    intro n hn
    exact ⟨_, step_runnable _ n hn (Or.inr rfl)⟩

/-- Witness for C6: pause on a concrete paused engine returns the engine
unchanged with success. -/
theorem pause_contract_witness :
    Engine.pause { create_engine "wb_test" "Sol" 5 with state := EngState.paused } =
      .ok { create_engine "wb_test" "Sol" 5 with state := EngState.paused } :=
  (pause_contract { create_engine "wb_test" "Sol" 5 with state := EngState.paused } rfl).1

/-- Claim C7: the documented Phase 04 verification run — create with
world_build_id "wb_test", starting system Sol and seed 999, then step(50) —
grows the starting population from 10,000,000 by compounding 2 percent per
tick logistic growth to 26,476,639 (approximately 26.4 million), keeps
exactly one populated system, and produces a non-empty event log (7 events at
this seed in the modelled configuration). -/
theorem phase04_reference_run :
    ∃ e', (create_engine "wb_test" "Sol" 999).step 50 = .ok e' ∧
      e'.snapshot.total_population = 26476639 ∧
      26400000 ≤ e'.snapshot.total_population ∧
      e'.snapshot.total_population < 26500000 ∧
      e'.snapshot.systems_populated = 1 ∧
      e'.snapshot.events ≠ [] ∧
      e'.snapshot.events.length = 7 ∧
      e'.snapshot.tick = 50 := by
  refine ⟨applyTicks 50 { create_engine "wb_test" "Sol" 999 with state := .running },
    rfl, ?_, ?_, ?_, ?_, ?_, ?_, ?_⟩ <;> decide

/-- Claim C8: the world_build_id never influences simulation results: two
engines that differ only in world_build_id report identical tick, total
population and systems populated after stepping the same number of ticks —
world_build_id is stored only as run metadata. -/
theorem wbid_is_metadata_only (wb₁ wb₂ ss : String) (s : ℕ) (n : ℤ) :
    Except.map obsTriple ((create_engine wb₁ ss s).step n) =
      Except.map obsTriple ((create_engine wb₂ ss s).step n) := by
  by_cases hn : n ≤ 0
  · rw [Engine.step, Engine.step, if_pos hn, if_pos hn]
  · rw [step_runnable (create_engine wb₁ ss s) n (by omega) (Or.inl rfl),
      step_runnable (create_engine wb₂ ss s) n (by omega) (Or.inl rfl)]
    obtain ⟨hw, -⟩ := applyTicks_world_congr n.toNat
      (show ({ create_engine wb₁ ss s with state := .running }).world =
        ({ create_engine wb₂ ss s with state := .running }).world from rfl)
      (show ({ create_engine wb₁ ss s with state := .running }).rng_events =
        ({ create_engine wb₂ ss s with state := .running }).rng_events from rfl)
    simp [Except.map, obsTriple, Engine.snapshot, hw]

/-- Claim C9: constructing an engine from world_build_id and seed alone —
starting_system defaulting to Sol — succeeds, and the resulting engine steps
and snapshots normally: stepping 10 ticks succeeds and yields a snapshot at
tick 10 with one populated system. -/
theorem create_default_runs (wb : String) (s : ℕ) :
    create_engine_default wb s = create_engine wb "Sol" s ∧
    ∃ e', (create_engine_default wb s).step 10 = .ok e' ∧
      e'.snapshot.tick = 10 ∧ e'.snapshot.systems_populated = 1 := by
  refine ⟨rfl, _, step_runnable _ 10 (by omega) (Or.inl rfl), ?_, ?_⟩
  · rw [snapshot_tick, applyTicks_tick]
    rfl
  · rw [snapshot_systems_populated, applyTicks_systems_length]
    rfl

/-- Claim C10: every step request this web client can issue carries a
positive interval — the simStep default is 1 when the caller supplies no
interval, and the simulation page's only request is interval 10 — so the
server's InvalidArgument branch for non-positive step intervals is
unreachable from this client. -/
theorem client_step_requests (i : ℤ) (hi : i ∈ clientStepIntervals) (e : Engine) :
    simStepInterval none = 1 ∧ handleStepInterval = 10 ∧ 0 < i ∧
      e.step i ≠ .error .invalidArgument := by
  have hpos : 0 < i := by
    simp [clientStepIntervals, simStepInterval, handleStepInterval] at hi
    rcases hi with rfl | rfl <;> omega
  refine ⟨rfl, rfl, hpos, ?_⟩
  rw [Engine.step, if_neg (by omega)]
  cases e.state <;> simp

/-- Witness for C10 at the simulation page's concrete request of interval
10 against a fresh engine. -/
theorem client_step_requests_witness :
    simStepInterval none = 1 ∧ handleStepInterval = 10 ∧ (0 : ℤ) < 10 ∧
      (create_engine "wb_test" "Sol" 1).step 10 ≠ .error .invalidArgument :=
  client_step_requests 10 (by decide) (create_engine "wb_test" "Sol" 1)

end ExoSim
